import Mathlib

/-!
Verification of the bootstrap helper in `src/main.py`: the requirement
checker (`check_requirements`, `command_exists`, `REQUIREMENTS`) and the
diagnostic logger (`setup_logger`, `ColoredFormatter`, the leveled
`log_*` emit operations), together with the entry point `main`.

The Python code is shallowly embedded:
- Python `logging` numeric levels are `Nat` (DEBUG = 10 < INFO = 20 <
  WARN = 30 < ERROR = 40 < CRITICAL = 50); the severity total order is
  the numeric order.
- The OS executable-resolution query `shutil.which` is a parameter
  `command_exists : String → Bool` of the functions that use it.
- The process-wide mutable `logging` state (handlers of the module
  logger returned by `get_logger()`, handlers and level of the root
  logger, the `propagate` flag) is an explicit `LoggerState` record;
  `setup_logger` maps state to state, and an emit returns the list of
  lines written to the sink.
- `log_level.upper()` raising `AttributeError` when the `--log-level`
  flag is absent (`None`) is modelled with `Except PyError`.
-/

deriving instance DecidableEq for Except

namespace TypesettingMarkdown

/-- Python `logging.DEBUG`. -/
def DEBUG : Nat := 10

/-- Python `logging.INFO`. -/
def INFO : Nat := 20

/-- Python `logging.WARN` (alias of `WARNING`). -/
def WARN : Nat := 30

/-- Python `logging.ERROR`. -/
def ERROR : Nat := 40

/-- Python `logging.CRITICAL`. -/
def CRITICAL : Nat := 50

/-- Python `logging.getLevelName` on the standard levels: the
`record.levelname` attribute used by the formatters. -/
def levelName (levelno : Nat) : String :=
  if levelno = DEBUG then "DEBUG"
  else if levelno = INFO then "INFO"
  else if levelno = WARN then "WARNING"
  else if levelno = ERROR then "ERROR"
  else if levelno = CRITICAL then "CRITICAL"
  else "Level " ++ toString levelno

/-- Python `str.upper` (ASCII part, all that the code needs):
uppercase every character. -/
def strUpper (s : String) : String := String.mk (s.data.map Char.toUpper)

/-- The `%-7s` conversion of Python %-formatting: left-justify by
padding with spaces on the right to a minimum width of 7. -/
def padRight7 (s : String) : String :=
  s ++ String.mk (List.replicate (7 - s.length) ' ')

/- ColoredFormatter class constants (src/main.py lines 16-21). -/

def GRAY : String := "\x1b[38;1m"

def BLUE : String := "\x1b[34;1m"

def YELLOW : String := "\x1b[33;1m"

def RED : String := "\x1b[31;1m"

def BOLD : String := "\x1b[4m"

def RESET : String := "\x1b[0m"

/-- A presentation style: an ANSI start code and a reset code. -/
structure Style where
  start : String
  reset : String
deriving DecidableEq, Repr

/-- One entry of `ColoredFormatter.FORMATS`: the style wrapped around
the `[%(levelname)-7s]` label and the style wrapped around the
`%(message)s` body. -/
structure FmtEntry where
  labelStyle : Style
  bodyStyle : Style
deriving DecidableEq, Repr

/-- `ColoredFormatter.FORMATS` (src/main.py lines 26-32): a dict from
levelno to the format template
`f'{STYLE}{LEVEL_FORMAT}{RESET} {STYLE}{MESSAGE_FORMAT}{RESET}'`,
represented by the pair of styles it applies; `Option.none` models a
key absent from the dict. -/
def FORMATS (levelno : Nat) : Option FmtEntry :=
  if levelno = INFO then some ⟨⟨GRAY, RESET⟩, ⟨GRAY, RESET⟩⟩
  else if levelno = DEBUG then some ⟨⟨BLUE, RESET⟩, ⟨BLUE, RESET⟩⟩
  else if levelno = WARN then some ⟨⟨YELLOW ++ BOLD, RESET⟩, ⟨YELLOW, RESET⟩⟩
  else if levelno = CRITICAL then some ⟨⟨YELLOW ++ BOLD, RESET⟩, ⟨YELLOW, RESET⟩⟩
  else if levelno = ERROR then some ⟨⟨RED ++ BOLD, RESET⟩, ⟨RED, RESET⟩⟩
  else none

/-- Render one `FORMATS` template on a record: the label part
`{start}[{levelname:-7}]{reset}`, a space, and the body part
`{start}{message}{reset}`. -/
def renderFmt (e : FmtEntry) (levelname msg : String) : String :=
  e.labelStyle.start ++ "[" ++ padRight7 levelname ++ "]" ++ e.labelStyle.reset
    ++ " " ++ e.bodyStyle.start ++ msg ++ e.bodyStyle.reset

namespace ColoredFormatter

/-- `ColoredFormatter.format` (src/main.py lines 34-37): look the
record's levelno up in `FORMATS` and format with the result; a missing
key gives `logging.Formatter(None)`, whose default format is
`%(message)s`, i.e. the bare message. -/
def format (levelno : Nat) (levelname msg : String) : String :=
  match FORMATS levelno with
  | some e => renderFmt e levelname msg
  | none => msg

end ColoredFormatter

/-- The formatter attached to a handler: the plain
`logging.Formatter("[%(levelname)-7s] %(message)s")` installed when
`--no-color` is given, the `ColoredFormatter()` installed otherwise,
and the default formatter (`"%(levelname)s:%(name)s:%(message)s"`) of
the handler that `logging.basicConfig` adds to the root logger. -/
inductive FormatterKind where
  | plain
  | colored
  | basicDefault
deriving DecidableEq, Repr

/-- Format one record with a handler's formatter. -/
def formatRecord (h : FormatterKind) (levelno : Nat) (msg : String) : String :=
  match h with
  | .plain => "[" ++ padRight7 (levelName levelno) ++ "] " ++ msg
  | .colored => ColoredFormatter.format levelno (levelName levelno) msg
  | .basicDefault => levelName levelno ++ ":__main__:" ++ msg

/-- The `logging` module state that src/main.py touches: the handlers
of the module logger `get_logger()` (whose own level stays `NOTSET`,
so its effective level is the root logger's), the root logger's
handlers and level, and the module logger's `propagate` flag. -/
structure LoggerState where
  handlers : List FormatterKind
  rootHandlers : List FormatterKind
  rootLevel : Nat
  propagate : Bool
deriving DecidableEq, Repr

/-- The state at interpreter start: no handlers anywhere, root level
`WARNING`, `propagate` true. -/
def freshState : LoggerState :=
  { handlers := [], rootHandlers := [], rootLevel := WARN, propagate := true }

/-- A Python exception surfaced by the embedded code. -/
inductive PyError where
  | attributeError : String → PyError
deriving DecidableEq, Repr

/-- `setup_logger(log_level, no_color)` (src/main.py lines 40-56).
`log_level` is `args.log_level : Option String` (`none` when the
`--log-level` flag is absent, in which case `log_level.upper()` raises
`AttributeError`). Computes the level (DEBUG/INFO by case-insensitive
name, WARN otherwise), builds a stream handler `ch` with the plain or
colored formatter, appends it to the module logger's handlers, sets
`propagate` to false, and calls `logging.basicConfig(level=level)`,
which adds a default handler to the root logger and sets the root
level — but only when the root logger has no handlers yet, otherwise
`basicConfig` is a no-op. -/
def setup_logger (log_level : Option String) (no_color : Bool)
    (st : LoggerState) : Except PyError LoggerState :=
  match log_level with
  | none => Except.error (PyError.attributeError
      "NoneType object has no attribute upper")
  | some ll =>
    let declared := strUpper ll
    let level :=
      if declared = "DEBUG" then DEBUG
      else if declared = "INFO" then INFO
      else WARN
    let ch := if no_color then FormatterKind.plain else FormatterKind.colored
    let st₁ : LoggerState :=
      { st with handlers := st.handlers ++ [ch], propagate := false }
    Except.ok <|
      if st₁.rootHandlers.isEmpty then
        { st₁ with rootHandlers := [FormatterKind.basicDefault],
                   rootLevel := level }
      else st₁

/-- One leveled emit (`log_debug`/`log_info`/`log_warn`/`log_error`,
src/main.py lines 63-76): returns the lines written to the sink.
`Logger.isEnabledFor` passes iff `levelno` is at least the effective
level (the root level, since the module logger's level is `NOTSET`);
a passing record is formatted by every handler of the module logger
and, when `propagate` is set, by the root logger's handlers too. -/
def emit (st : LoggerState) (levelno : Nat) (msg : String) : List String :=
  if st.rootLevel ≤ levelno then
    st.handlers.map (fun h => formatRecord h levelno msg)
      ++ (if st.propagate then
            st.rootHandlers.map (fun h => formatRecord h levelno msg)
          else [])
  else []

/-- `REQUIREMENTS` (src/main.py lines 7-11). -/
def REQUIREMENTS : List (String × String) :=
  [("pandoc", "https://www.pandoc.org"),
   ("context", "https://wiki.contextgarden.net"),
   ("gs", "https://www.ghostscript.com")]

/-- `check_requirements` (src/main.py lines 95-100), parameterized by
the requirement list it loops over and by `command_exists` (a wrapper
around `shutil.which`). Returns the Python return value together with
the `(levelno, message)` log calls it makes: for the first entry whose
command does not exist it calls `log_error` with the missing-program
message and returns `False` at once; if every command exists it
returns `True` having logged nothing. -/
def check_requirements (command_exists : String → Bool) :
    List (String × String) → Bool × List (Nat × String)
  | [] => (true, [])
  | (name, url) :: rest =>
    if !(command_exists name) then
      (false, [(ERROR, "Missing required program: " ++ name ++ "\t" ++ url)])
    else
      check_requirements command_exists rest

/-- The options structure built by `parse_args` (src/main.py lines
79-88): `--log-level` is optional with default `None`; `--no-color`
is a boolean flag. -/
structure Args where
  log_level : Option String
  no_color : Bool
deriving DecidableEq, Repr

/-- `main` (src/main.py lines 103-121), parameterized by the OS query
`which`. Sets up the logger (which can raise on an absent log level),
runs `check_requirements`; on failure calls `exit(-1)` — so the only
sink output is the checker's diagnostics — and on success runs the
body's four log calls and falls off the end, exiting with code 0.
Returns the exit code and the full list of sink lines. -/
def main (which : String → Bool) (args : Args) :
    Except PyError (Int × List String) :=
  match setup_logger args.log_level args.no_color freshState with
  | Except.error e => Except.error e
  | Except.ok st =>
    match check_requirements which REQUIREMENTS with
    | (ok, diags) =>
      let checkOut := (diags.map (fun d => emit st d.1 d.2)).flatten
      if ok then
        Except.ok (0, checkOut
          ++ emit st WARN "Something bad has happened"
          ++ emit st ERROR "Something even worse has happened"
          ++ emit st INFO "Program requirements satisfied!"
          ++ emit st DEBUG "Testing")
      else
        Except.ok (-1, checkOut)

/-! ## Helper lemmas -/

/-- Running `setup_logger` with a present level spec on the fresh
interpreter state: one handler on the module logger, the `basicConfig`
handler on the root logger, root level from the spec, propagation off. -/
theorem setup_logger_fresh (s : String) (nc : Bool) :
    setup_logger (some s) nc freshState
      = Except.ok
          { handlers := [if nc then FormatterKind.plain else FormatterKind.colored],
            rootHandlers := [FormatterKind.basicDefault],
            rootLevel :=
              if strUpper s = "DEBUG" then DEBUG
              else if strUpper s = "INFO" then INFO
              else WARN,
            propagate := false } := by
  cases nc <;> rfl

/-- Running `setup_logger` on a state whose root logger already has a
handler: another handler is appended to the module logger, and
`logging.basicConfig` is a no-op, so neither the root handlers nor the
root level change. -/
theorem setup_logger_again (s : String) (nc : Bool) (st : LoggerState)
    (h : st.rootHandlers.isEmpty = false) :
    setup_logger (some s) nc st
      = Except.ok { st with
          handlers :=
            st.handlers ++ [if nc then FormatterKind.plain else FormatterKind.colored],
          propagate := false } := by
  cases nc <;> simp [setup_logger, h]

/-- The escape character stays absent under string concatenation. -/
theorem esc_notin_append (a b : String)
    (ha : '\x1b' ∉ a.data) (hb : '\x1b' ∉ b.data) :
    '\x1b' ∉ (a ++ b).data := by
  rw [String.data_append]
  intro h
  rcases List.mem_append.mp h with h | h
  · exact ha h
  · exact hb h

/-! ## Requirement checker claims -/

/-- C1 counterexample: with two entries and both commands missing
(k = 2), the code emits exactly one diagnostic — the one for the first
entry — not one per missing entry: `check_requirements` returns at the
first missing entry instead of continuing, so the claimed two ERROR
diagnostics (and in particular the one naming `b` and `u2`) are never
emitted. -/
theorem C1_counterexample :
    (check_requirements (fun _ => false) [("a", "u1"), ("b", "u2")]).2
      = [(ERROR, "Missing required program: a\tu1")]
    ∧ (check_requirements (fun _ => false) [("a", "u1"), ("b", "u2")]).2.length
      = 1 := by
  exact ⟨rfl, rfl⟩

/-- C1 (amended): `check_requirements` short-circuits. It emits exactly
one ERROR-severity diagnostic of the form
`Missing required program: name TAB reference` for the FIRST entry
whose command is missing and returns immediately, checking no further
entries, and emits nothing when every entry is found. -/
theorem C1_first_missing_only (command_exists : String → Bool)
    (reqs : List (String × String)) :
    (check_requirements command_exists reqs).2 =
      match reqs.find? (fun r => !(command_exists r.1)) with
      | none => []
      | some r =>
          [(ERROR, "Missing required program: " ++ r.1 ++ "\t" ++ r.2)] := by
  induction reqs with
  | nil => rfl
  | cons hd tl ih =>
    obtain ⟨name, url⟩ := hd
    by_cases h : command_exists name
    · simpa [check_requirements, List.find?_cons, h] using ih
    · simp [check_requirements, List.find?_cons, h]

/-- C3: `check_requirements` returns `false` iff the number k of
missing entries is positive, and returns `true` iff k = 0, i.e. iff
every entry's command was found. -/
theorem C3_false_iff_missing (command_exists : String → Bool)
    (reqs : List (String × String)) :
    ((check_requirements command_exists reqs).1 = false
        ↔ 0 < reqs.countP (fun r => !(command_exists r.1)))
    ∧ ((check_requirements command_exists reqs).1 = true
        ↔ reqs.countP (fun r => !(command_exists r.1)) = 0) := by
  induction reqs with
  | nil => simp [check_requirements]
  | cons hd tl ih =>
    obtain ⟨name, url⟩ := hd
    by_cases h : command_exists name
    · simpa [check_requirements, List.countP_cons, h] using ih
    · simp [check_requirements, List.countP_cons, h]

/-- C9: on the empty requirement list `check_requirements` returns
`true` and makes zero log calls. -/
theorem C9_empty_requirements (command_exists : String → Bool) :
    check_requirements command_exists [] = (true, []) := rfl

/-! ## Logger threshold claims -/

/-- C2: the code contradicts the claim on an absent threshold spec.
When the `--log-level` flag is not given (`log_level = none`),
`setup_logger` evaluates `log_level.upper()` on `None` and raises
`AttributeError` instead of defaulting to the WARN threshold, while an
unrecognized string such as `"bogus"` does install the handler with
root level WARN — so an unrecognized spec and an absent spec are not
equivalent as the claim states. -/
theorem C2_absent_level_spec_raises :
    setup_logger none false freshState
        = Except.error (PyError.attributeError
            "NoneType object has no attribute upper")
    ∧ setup_logger (some "bogus") false freshState
        = Except.ok { handlers := [FormatterKind.colored],
                      rootHandlers := [FormatterKind.basicDefault],
                      rootLevel := WARN, propagate := false } := by
  exact ⟨rfl, by decide⟩

/-! ## Color scheme claims -/

/-- C10: `ColoredFormatter.FORMATS` maps `logging.CRITICAL` to exactly
the same entry as `logging.WARN` — yellow body, yellow-and-emphasized
(bold-underline code) label — so a CRITICAL record is styled exactly
like a WARN record and the colored formatting functions of the two
levels coincide on every record. -/
theorem C10_critical_warn_same_style :
    FORMATS CRITICAL = FORMATS WARN
    ∧ FORMATS CRITICAL = some ⟨⟨YELLOW ++ BOLD, RESET⟩, ⟨YELLOW, RESET⟩⟩
    ∧ ∀ levelname msg, ColoredFormatter.format CRITICAL levelname msg
        = ColoredFormatter.format WARN levelname msg := by
  exact ⟨rfl, rfl, fun levelname msg => rfl⟩

/-! ## Threshold filtering and sink claims -/

/-- C4: after the logger is initialized by a successful `setup_logger`
call (so the threshold is `st.rootLevel`), an emit at severity `S`
writes exactly one line to the sink when `S` is at least the threshold
in the severity total order (numeric levelno order), and writes
nothing — with no error — when `S` is below it. -/
theorem C4_visible_iff_at_least_threshold (s : String) (nc : Bool)
    (msg : String) (S : Nat) (st : LoggerState)
    (hst : setup_logger (some s) nc freshState = Except.ok st) :
    (emit st S msg).length = if st.rootLevel ≤ S then 1 else 0 := by
  rw [setup_logger_fresh] at hst
  injection hst with hst
  subst hst
  by_cases h : (if strUpper s = "DEBUG" then DEBUG
      else if strUpper s = "INFO" then INFO else WARN) ≤ S <;>
    simp [emit, h]

/-- C4 witness: threshold INFO (spec "info"), severity WARN ≥ INFO:
exactly one line is emitted. -/
theorem C4_visible_iff_at_least_threshold_witness :
    (emit { handlers := [FormatterKind.plain],
            rootHandlers := [FormatterKind.basicDefault],
            rootLevel := INFO, propagate := false } WARN "m").length = 1 :=
  C4_visible_iff_at_least_threshold "info" true "m" WARN
    { handlers := [FormatterKind.plain],
      rootHandlers := [FormatterKind.basicDefault],
      rootLevel := INFO, propagate := false } (by decide)

/-- C5 counterexample: calling `setup_logger` twice silently duplicates
log lines. After two initializations a single visible ERROR emit
produces 2 sink lines, refuting the claim that initializing more than
once does not duplicate output (each message should appear exactly
once). -/
theorem C5_counterexample :
    Except.map (fun st => (emit st ERROR "boom").length)
        (Except.bind (setup_logger (some "info") true freshState)
          (fun st => setup_logger (some "info") true st))
      = Except.ok 2 := by
  decide

/-- C5 (amended): a single `setup_logger` call installs exactly one
sink, and a visible message then appears exactly once; but each further
call appends one more handler without any guard, so after a second
initialization every visible message appears exactly twice — repeated
initialization silently duplicates log lines. -/
theorem C5_single_init_single_line (s₁ s₂ : String) (nc₁ nc₂ : Bool)
    (msg : String) (S : Nat) (st₁ st₂ : LoggerState)
    (h₁ : setup_logger (some s₁) nc₁ freshState = Except.ok st₁)
    (h₂ : setup_logger (some s₂) nc₂ st₁ = Except.ok st₂) :
    st₁.handlers.length = 1
    ∧ (st₁.rootLevel ≤ S → (emit st₁ S msg).length = 1)
    ∧ st₂.handlers.length = 2
    ∧ (st₂.rootLevel ≤ S → (emit st₂ S msg).length = 2) := by
  rw [setup_logger_fresh] at h₁
  injection h₁ with h₁
  subst h₁
  rw [setup_logger_again s₂ nc₂
    { handlers := [if nc₁ then FormatterKind.plain else FormatterKind.colored],
      rootHandlers := [FormatterKind.basicDefault],
      rootLevel :=
        if strUpper s₁ = "DEBUG" then DEBUG
        else if strUpper s₁ = "INFO" then INFO
        else WARN,
      propagate := false } rfl] at h₂
  injection h₂ with h₂
  subst h₂
  refine ⟨rfl, fun hle => ?_, rfl, fun hle => ?_⟩
  · simp [emit, hle]
  · simp_all [emit]

/-- C5 witness: with threshold INFO, after one initialization an ERROR
emit yields one line, after a second initialization it yields two. -/
theorem C5_single_init_single_line_witness :
    (⟨[FormatterKind.plain], [FormatterKind.basicDefault], INFO, false⟩
        : LoggerState).handlers.length = 1
    ∧ (emit ⟨[FormatterKind.plain], [FormatterKind.basicDefault], INFO, false⟩
        ERROR "m").length = 1
    ∧ (⟨[FormatterKind.plain, FormatterKind.plain],
        [FormatterKind.basicDefault], INFO, false⟩
        : LoggerState).handlers.length = 2
    ∧ (emit ⟨[FormatterKind.plain, FormatterKind.plain],
        [FormatterKind.basicDefault], INFO, false⟩ ERROR "m").length = 2 := by
  obtain ⟨a, b, c, d⟩ := C5_single_init_single_line "info" "info" true true
    "m" ERROR
    ⟨[FormatterKind.plain], [FormatterKind.basicDefault], INFO, false⟩
    ⟨[FormatterKind.plain, FormatterKind.plain],
      [FormatterKind.basicDefault], INFO, false⟩
    (by decide) (by decide)
  exact ⟨a, b (by decide), c, d (by decide)⟩

/-- C6: with color disabled (`--no-color`), a visible emit produces the
single line `[LEVEL  ] message`: the level label left-justified to
exactly 7 characters inside the brackets, followed by the raw message,
and the line contains no ANSI escape character (provided the raw
message itself contains none). -/
theorem C6_plain_label_no_ansi (s msg : String) (S : Nat)
    (st : LoggerState)
    (hS : S ∈ [DEBUG, INFO, WARN, ERROR])
    (hmsg : '\x1b' ∉ msg.data)
    (hst : setup_logger (some s) true freshState = Except.ok st)
    (hvis : st.rootLevel ≤ S) :
    emit st S msg = ["[" ++ padRight7 (levelName S) ++ "] " ++ msg]
    ∧ (padRight7 (levelName S)).length = 7
    ∧ '\x1b' ∉ ("[" ++ padRight7 (levelName S) ++ "] " ++ msg).data := by
  rw [setup_logger_fresh] at hst
  injection hst with hst
  subst hst
  refine ⟨by simp [emit, hvis, formatRecord], ?_, ?_⟩
  · rcases (show S = DEBUG ∨ S = INFO ∨ S = WARN ∨ S = ERROR by
        simpa using hS) with rfl | rfl | rfl | rfl <;> decide
  · rcases (show S = DEBUG ∨ S = INFO ∨ S = WARN ∨ S = ERROR by
        simpa using hS) with rfl | rfl | rfl | rfl <;>
      exact esc_notin_append _ _ (by decide) hmsg

/-- C6 witness: threshold DEBUG, ERROR emit of "hello" with color
disabled. -/
theorem C6_plain_label_no_ansi_witness :
    emit ⟨[FormatterKind.plain], [FormatterKind.basicDefault], DEBUG, false⟩
        ERROR "hello"
      = ["[" ++ padRight7 (levelName ERROR) ++ "] " ++ "hello"]
    ∧ (padRight7 (levelName ERROR)).length = 7
    ∧ '\x1b' ∉ ("[" ++ padRight7 (levelName ERROR) ++ "] " ++ "hello").data :=
  C6_plain_label_no_ansi "debug" "hello" ERROR
    ⟨[FormatterKind.plain], [FormatterKind.basicDefault], DEBUG, false⟩
    (by decide) (by decide) (by decide) (by decide)

/-- C7: the `FORMATS` lookup is total over the severity enumeration:
for each of DEBUG, INFO, WARN, ERROR it yields an entry (a label style
and a body style), and `ColoredFormatter.format` renders every record
of these severities with that entry — it never falls back to the
missing-key default, so formatting never fails for them. -/
theorem C7_formats_total (lvl : Nat)
    (h : lvl ∈ [DEBUG, INFO, WARN, ERROR]) :
    (FORMATS lvl).isSome = true
    ∧ ∀ levelname msg, ColoredFormatter.format lvl levelname msg
        = renderFmt (Option.getD (FORMATS lvl) ⟨⟨"", ""⟩, ⟨"", ""⟩⟩)
            levelname msg := by
  rcases (show lvl = DEBUG ∨ lvl = INFO ∨ lvl = WARN ∨ lvl = ERROR by
      simpa using h) with rfl | rfl | rfl | rfl <;>
    exact ⟨rfl, fun levelname msg => rfl⟩

/-- C7 witness: the WARN entry exists and formats a WARN record. -/
theorem C7_formats_total_witness :
    (FORMATS WARN).isSome = true
    ∧ ColoredFormatter.format WARN "WARNING" "m"
        = renderFmt (Option.getD (FORMATS WARN) ⟨⟨"", ""⟩, ⟨"", ""⟩⟩)
            "WARNING" "m" :=
  ⟨(C7_formats_total WARN (by decide)).1,
   (C7_formats_total WARN (by decide)).2 "WARNING" "m"⟩

/-- C8: once the logger is set up, if `check_requirements` returns
`false` then `main` exits with the nonzero code -1 and the only sink
output is the checker's diagnostics — none of the main body's log
emissions happen; if it returns `true`, `main` runs the body's log
calls and exits with code 0. -/
theorem C8_exit_code (which : String → Bool) (s : String) (nc : Bool)
    (st : LoggerState)
    (hst : setup_logger (some s) nc freshState = Except.ok st) :
    ((check_requirements which REQUIREMENTS).1 = false →
      main which ⟨some s, nc⟩
        = Except.ok (-1,
            ((check_requirements which REQUIREMENTS).2.map
              (fun d => emit st d.1 d.2)).flatten))
    ∧ ((check_requirements which REQUIREMENTS).1 = true →
      main which ⟨some s, nc⟩
        = Except.ok (0,
            ((check_requirements which REQUIREMENTS).2.map
              (fun d => emit st d.1 d.2)).flatten
            ++ emit st WARN "Something bad has happened"
            ++ emit st ERROR "Something even worse has happened"
            ++ emit st INFO "Program requirements satisfied!"
            ++ emit st DEBUG "Testing")) := by
  constructor <;> intro h <;> simp [main, hst, h]

/-- C8 witness: no command resolvable, spec "info", color off: `main`
exits with -1 and the sink holds only the first missing-program line. -/
theorem C8_exit_code_witness :
    main (fun _ => false) ⟨some "info", true⟩
      = Except.ok (-1,
          ["[ERROR  ] Missing required program: pandoc\thttps://www.pandoc.org"]) :=
  ((C8_exit_code (fun _ => false) "info" true
      ⟨[FormatterKind.plain], [FormatterKind.basicDefault], INFO, false⟩
      (by decide)).1 (by decide)).trans (by decide)

end TypesettingMarkdown
